import Mathlib

/-!
Shallow embedding of the mint-eligibility controller in
src/src/components/StreamlinedNFTMinting.tsx.

The component derives a UI state from externally owned inputs (wallet
session, selected chain, fetched USDC balance, persisted mint flag) and
exposes three side-effecting operations (connect, switch network, mint).
External collaborators (wagmi hooks, the Farcaster SDK, localStorage) are
modelled as explicit inputs and an explicit key-value store; a thrown
failure of an awaited external call is modelled by a Boolean outcome
parameter of the operation.
-/

namespace SeaSeawell

/-- The two selectable networks (the component's selectedChain state is
typed "ethereum" | "base"). -/
inductive ChainName
| ethereum
| base
deriving DecidableEq, Repr

/-- Chain record with the fields the component reads (id, display name). -/
structure ChainInfo where
  id : Nat
  name : String
deriving DecidableEq, Repr

/-- Modelled from the spec: findChainByName lives in ~/lib/chains, which is
not under src/; the spec describes it as a static map from chain name to
chain id / token address for exactly the two supported chains.  Chain ids
are the canonical mainnet ids (Ethereum 1, Base 8453); only which entries
exist and that the two ids differ matter to the claims. -/
def chainInfoOf : ChainName → ChainInfo
| .ethereum => { id := 1, name := ("Ethereum") }
| .base => { id := 8453, name := ("Base") }

/-- Modelled from the spec: the lookup returns an entry for each of the two
supported names (the component only ever calls it with those two). -/
def findChainByName (c : ChainName) : Option ChainInfo :=
  some (chainInfoOf c)

/-- The lowercase chain name, as interpolated into the switch-failure
message (the template literal uses selectedChain itself). -/
def chainNameStr : ChainName → String
| .ethereum => ("ethereum")
| .base => ("base")

/-- Externally owned inputs the component reads on a render: the Farcaster
SDK flag, the wagmi account (isConnected, address, chain), the selected
chain and the fetched USDC balance value (none while loading/absent). -/
structure Env where
  isSDKLoaded : Bool
  isConnected : Bool
  address : Option String
  chainId : Option Nat
  selectedChain : ChainName
  balance : Option Nat
deriving DecidableEq, Repr

/-- targetChain = findChainByName(selectedChain). -/
def targetChain (e : Env) : Option ChainInfo :=
  findChainByName e.selectedChain

/-- isCorrectNetwork = (chain?.id === targetChain?.id): JavaScript strict
equality on the two possibly-undefined ids (undefined === undefined holds). -/
def isCorrectNetwork (e : Env) : Bool :=
  e.chainId == (targetChain e).map (fun tc => tc.id)

/-- The mint price in USDC smallest units: BigInt(10 * 10**6). -/
def usdcThreshold : Nat := 10 * 10 ^ 6

/-- hasEnoughUSDC = usdcBalance && usdcBalance.value >= BigInt(10 * 10**6);
an absent balance is falsy. -/
def hasEnoughUSDC (balance : Option Nat) : Bool :=
  match balance with
  | none => false
  | some v => decide (usdcThreshold ≤ v)

/-- The five derivable UI states named by the spec. -/
inductive MintUIState
| NeedsConnect
| NeedsNetworkSwitch
| AlreadyMinted
| InsufficientFunds
| ReadyToMint
deriving DecidableEq, Repr

/-- The derived state, read off the if-chain of getButtonText (the
component identifies the state by the button label it renders). -/
def deriveState (e : Env) (hasMinted : Bool) : MintUIState :=
  if !e.isConnected then .NeedsConnect
  else if !(isCorrectNetwork e) then .NeedsNetworkSwitch
  else if hasMinted then .AlreadyMinted
  else if !(hasEnoughUSDC e.balance) then .InsufficientFunds
  else .ReadyToMint

/-- getButtonText, literally: the rendered label for each state
(template-literal interpolation of an undefined name renders "undefined"). -/
def getButtonText (e : Env) (hasMinted : Bool) : String :=
  if !e.isConnected then ("Connect Wallet")
  else if !(isCorrectNetwork e) then
    ("Switch to ") ++ (match targetChain e with
      | some tc => tc.name
      | none => ("undefined"))
  else if hasMinted then ("Already Minted")
  else if !(hasEnoughUSDC e.balance) then ("Insufficient USDC")
  else ("Mint NFT")

/-- localStorage modelled as an association list; getItem returns the most
recent value written for the key, or none. -/
def lsGet (store : List (String × String)) (k : String) : Option String :=
  (store.find? (fun p => p.1 == k)).map (fun p => p.2)

/-- localStorage.setItem: the new binding shadows any previous one. -/
def lsSet (store : List (String × String)) (k v : String) :
    List (String × String) :=
  (k, v) :: store

/-- The storage key: `minted_${contractAddress}_${address}` (plain string
concatenation of the two addresses around underscores). -/
def mintKey (contract addr : String) : String :=
  ("minted_") ++ contract ++ ("_") ++ addr

/-- The component's own mutable state: the persisted store plus the React
state hooks hasMinted, isLoading, error, success. -/
structure CState where
  store : List (String × String)
  hasMinted : Bool
  isLoading : Bool
  error : Option String
  success : Bool
deriving DecidableEq, Repr

/-- External calls an operation can issue, recorded for the frame/no-retry
claims. -/
inductive ExtCall
| connectCall
| switchChainCall (chainId : Nat)
| delayCall
| setItemCall (key value : String)
deriving BEq, DecidableEq, Repr

/-- Recognises the store-writing call. -/
def isSetItemCall : ExtCall → Bool
| .setItemCall _ _ => true
| _ => false

/-- The React.useEffect at lines 64-72: when an address is present and the
wallet is connected, hasMinted is re-read from the store under the
namespaced key; otherwise nothing happens. -/
def hasMintedEffect (contract : String) (e : Env) (s : CState) : CState :=
  match e.address with
  | some addr =>
    if e.isConnected then
      { s with hasMinted := lsGet s.store (mintKey contract addr) == some ("true") }
    else s
  | none => s

/-- handleConnectWallet: guard on the SDK flag, then
try { setIsLoading(true); setError(null); await connect } catch { setError }
finally { setIsLoading(false) }.  The Boolean argument says whether the
awaited connect call throws. -/
def handleConnectWallet (e : Env) (s : CState) (connectThrows : Bool) :
    CState × List ExtCall :=
  if !e.isSDKLoaded then
    ({ s with error := some ("Farcaster SDK not loaded") }, [])
  else if connectThrows then
    ({ s with isLoading := false, error := some ("Failed to connect wallet") },
     [.connectCall])
  else
    ({ s with isLoading := false, error := none }, [.connectCall])

/-- handleSwitchNetwork: early return when targetChain is undefined, then
the same try/catch/finally shape around switchChain; the failure message
interpolates selectedChain. -/
def handleSwitchNetwork (e : Env) (s : CState) (switchThrows : Bool) :
    CState × List ExtCall :=
  match targetChain e with
  | none => (s, [])
  | some tc =>
    if switchThrows then
      ({ s with isLoading := false,
                error := some (("Failed to switch to ") ++ chainNameStr e.selectedChain) },
       [.switchChainCall tc.id])
    else
      ({ s with isLoading := false, error := none }, [.switchChainCall tc.id])

/-- handleMint: guard `if (!isConnected || !address || hasMinted) return`,
then try { loading; clear error; await delay; setItem(key,"true");
setHasMinted(true); setSuccess(true) } catch { setError } finally
{ setIsLoading(false) }.  A throw of the awaited simulation (or of the
failed store write itself) leaves the store unwritten. -/
def handleMint (contract : String) (e : Env) (s : CState) (mintThrows : Bool) :
    CState × List ExtCall :=
  if !e.isConnected then (s, [])
  else
    match e.address with
    | none => (s, [])
    | some addr =>
      if s.hasMinted then (s, [])
      else if mintThrows then
        ({ s with isLoading := false,
                  error := some ("Minting failed. Please try again.") },
         [.delayCall])
      else
        ({ s with store := lsSet s.store (mintKey contract addr) ("true"),
                  hasMinted := true,
                  isLoading := false,
                  error := none,
                  success := true },
         [.delayCall, .setItemCall (mintKey contract addr) ("true")])

/-- canMint, literally. -/
def canMint (e : Env) (s : CState) : Bool :=
  e.isConnected && isCorrectNetwork e && hasEnoughUSDC e.balance &&
    !s.hasMinted && !s.isLoading

/-- The three primary actions the button can dispatch. -/
inductive ActionKind
| requestConnect
| requestChainSwitch
| requestMint
deriving DecidableEq, Repr

/-- getButtonAction, literally. -/
def getButtonAction (e : Env) : ActionKind :=
  if !e.isConnected then .requestConnect
  else if !(isCorrectNetwork e) then .requestChainSwitch
  else .requestMint

/-- The Button's disabled expression at line 263:
hasMinted || isLoading || (!canMint && isConnected && isCorrectNetwork && !hasEnoughUSDC). -/
def buttonDisabled (e : Env) (s : CState) : Bool :=
  s.hasMinted || s.isLoading ||
    (!(canMint e s) && e.isConnected && isCorrectNetwork e &&
      !(hasEnoughUSDC e.balance))

/-- The primary action actually available to the user: none when the button
is disabled, otherwise the action getButtonAction wires to onClick. -/
def enabledAction (e : Env) (s : CState) : Option ActionKind :=
  if buttonDisabled e s then none else some (getButtonAction e)

/-- One step of the controller: an operation invocation (with its external
outcome), the hasMinted-sync effect, or the 5-second success timeout
clearing the transient success flag. -/
inductive Op
| connectOp (e : Env) (throws : Bool)
| switchOp (e : Env) (throws : Bool)
| mintOp (contract : String) (e : Env) (throws : Bool)
| syncOp (contract : String) (e : Env)
| successClearOp
deriving Repr

/-- Apply one step to the component state. -/
def applyOp (s : CState) : Op → CState
| .connectOp e b => (handleConnectWallet e s b).1
| .switchOp e b => (handleSwitchNetwork e s b).1
| .mintOp c e b => (handleMint c e s b).1
| .syncOp c e => hasMintedEffect c e s
| .successClearOp => { s with success := false }

/-- Run a sequence of steps. -/
def runOps (s : CState) (ops : List Op) : CState :=
  ops.foldl applyOp s

/-- Sample environment: connected on Base with matching chain and a
sufficient balance. -/
def envReady : Env :=
  { isSDKLoaded := true, isConnected := true, address := some ("0xA"),
    chainId := some 8453, selectedChain := .base, balance := some 10000000 }

/-- Sample environment: SDK not loaded, nothing connected. -/
def envNoSdk : Env :=
  { isSDKLoaded := false, isConnected := false, address := none,
    chainId := none, selectedChain := .base, balance := none }

/-- Sample component state: empty store, nothing set. -/
def stFresh : CState :=
  { store := [], hasMinted := false, isLoading := false, error := none,
    success := false }

/-! Shared lemmas. -/

lemma lsGet_lsSet (store : List (String × String)) (k k' v : String) :
    lsGet (lsSet store k' v) k = if (k' == k) then some v else lsGet store k := by
  cases h : (k' == k) <;> simp [lsGet, lsSet, List.find?_cons, h]

lemma isCorrectNetwork_iff (e : Env) :
    isCorrectNetwork e = true ↔ e.chainId = some (chainInfoOf e.selectedChain).id := by
  simp [isCorrectNetwork, targetChain, findChainByName]

lemma handleMint_ok (c a : String) (e : Env) (s : CState)
    (h1 : e.isConnected = true) (h2 : e.address = some a)
    (h3 : s.hasMinted = false) :
    handleMint c e s false =
      ({ s with store := lsSet s.store (mintKey c a) ("true"),
                hasMinted := true, isLoading := false, error := none,
                success := true },
       [.delayCall, .setItemCall (mintKey c a) ("true")]) := by
  simp [handleMint, h1, h2, h3]

lemma connect_store_frame (e : Env) (s : CState) (b : Bool) :
    (handleConnectWallet e s b).1.store = s.store := by
  cases hs : e.isSDKLoaded <;> cases b <;> simp [handleConnectWallet, hs]

lemma switch_store_frame (e : Env) (s : CState) (b : Bool) :
    (handleSwitchNetwork e s b).1.store = s.store := by
  cases b <;> simp [handleSwitchNetwork, targetChain, findChainByName]

lemma mint_store_cases (c : String) (e : Env) (s : CState) (b : Bool) :
    (handleMint c e s b).1.store = s.store ∨
    ∃ addr, e.address = some addr ∧
      (handleMint c e s b).1.store = lsSet s.store (mintKey c addr) ("true") := by
  cases hc : e.isConnected
  · exact Or.inl (by simp [handleMint, hc])
  · cases ha : e.address with
    | none => exact Or.inl (by simp [handleMint, hc, ha])
    | some addr =>
      cases hm : s.hasMinted
      · cases b
        · exact Or.inr ⟨addr, rfl, by simp [handleMint, hc, ha, hm]⟩
        · exact Or.inl (by simp [handleMint, hc, ha, hm])
      · exact Or.inl (by simp [handleMint, hc, ha, hm])

lemma storeTrue_mono (s : CState) (op : Op) (k : String)
    (h : lsGet s.store k = some ("true")) :
    lsGet (applyOp s op).store k = some ("true") := by
  cases op with
  | connectOp e b => rw [applyOp, connect_store_frame]; exact h
  | switchOp e b => rw [applyOp, switch_store_frame]; exact h
  | mintOp c e b =>
    rcases mint_store_cases c e s b with hst | ⟨addr, _, hst⟩
    · rw [applyOp, hst]; exact h
    · rw [applyOp, hst, lsGet_lsSet]
      cases hk : (mintKey c addr == k) <;> simp [hk, h]
  | syncOp c e =>
    cases ha : e.address with
    | none => simpa [applyOp, hasMintedEffect, ha] using h
    | some addr =>
      cases hc : e.isConnected <;> simpa [applyOp, hasMintedEffect, ha, hc] using h
  | successClearOp => exact h

lemma runOps_storeTrue (ops : List Op) (s : CState) (k : String)
    (h : lsGet s.store k = some ("true")) :
    lsGet (runOps s ops).store k = some ("true") := by
  induction ops generalizing s with
  | nil => exact h
  | cons op rest ih =>
    simp only [runOps, List.foldl] at ih ⊢
    exact ih (applyOp s op) (storeTrue_mono s op k h)

/-- The rendered button label is determined by the derived state together
with the selected chain's display name. -/
def stateText : MintUIState → ChainName → String
| .NeedsConnect, _ => ("Connect Wallet")
| .NeedsNetworkSwitch, c => ("Switch to ") ++ (chainInfoOf c).name
| .AlreadyMinted, _ => ("Already Minted")
| .InsufficientFunds, _ => ("Insufficient USDC")
| .ReadyToMint, _ => ("Mint NFT")

lemma getButtonText_eq_stateText (e : Env) (hm : Bool) :
    getButtonText e hm = stateText (deriveState e hm) e.selectedChain := by
  cases hc : e.isConnected <;> cases hn : isCorrectNetwork e <;>
    cases hm <;> cases hb : hasEnoughUSDC e.balance <;>
      simp [getButtonText, deriveState, stateText, targetChain,
        findChainByName, hc, hn, hb]

/-! Claim theorems. -/

/-- Claim C1: the derived UI state is always exactly one of NeedsConnect,
NeedsNetworkSwitch, AlreadyMinted, InsufficientFunds, ReadyToMint, chosen
by strict first-match priority: not connected gives NeedsConnect; else an
active chain id differing from the selected chain's id gives
NeedsNetworkSwitch; else a true mint flag gives AlreadyMinted; else an
undefined or below-threshold balance gives InsufficientFunds; else
ReadyToMint. -/
theorem derived_state_priority (e : Env) (hm : Bool) :
    (e.isConnected = false → deriveState e hm = .NeedsConnect) ∧
    (e.isConnected = true → e.chainId ≠ some (chainInfoOf e.selectedChain).id →
      deriveState e hm = .NeedsNetworkSwitch) ∧
    (e.isConnected = true → e.chainId = some (chainInfoOf e.selectedChain).id →
      hm = true → deriveState e hm = .AlreadyMinted) ∧
    (e.isConnected = true → e.chainId = some (chainInfoOf e.selectedChain).id →
      hm = false → (∀ v, e.balance = some v → v < usdcThreshold) →
      deriveState e hm = .InsufficientFunds) ∧
    (e.isConnected = true → e.chainId = some (chainInfoOf e.selectedChain).id →
      hm = false → (∃ v, e.balance = some v ∧ usdcThreshold ≤ v) →
      deriveState e hm = .ReadyToMint) := by
  refine ⟨?_, ?_, ?_, ?_, ?_⟩
  · intro h; simp [deriveState, h]
  · intro h hne
    cases hn : isCorrectNetwork e
    · simp [deriveState, h, hn]
    · exact absurd ((isCorrectNetwork_iff e).mp hn) hne
  · intro h hid hhm
    have hn : isCorrectNetwork e = true := (isCorrectNetwork_iff e).mpr hid
    simp [deriveState, h, hn, hhm]
  · intro h hid hhm hlow
    have hn : isCorrectNetwork e = true := (isCorrectNetwork_iff e).mpr hid
    have hb : hasEnoughUSDC e.balance = false := by
      cases hbal : e.balance with
      | none => simp [hasEnoughUSDC]
      | some v =>
        have := hlow v hbal
        simp [hasEnoughUSDC]
        omega
    simp [deriveState, h, hn, hhm, hb]
  · intro h hid hhm hhigh
    have hn : isCorrectNetwork e = true := (isCorrectNetwork_iff e).mpr hid
    rcases hhigh with ⟨v, hbal, hv⟩
    have hb : hasEnoughUSDC e.balance = true := by
      simp [hasEnoughUSDC, hbal]
      omega
    simp [deriveState, h, hn, hhm, hb]

/-- Witness for C1 at concrete inputs: a disconnected environment derives
NeedsConnect, and a connected, correct-chain, unminted, funded one derives
ReadyToMint. -/
theorem derived_state_priority_witness :
    deriveState envNoSdk false = .NeedsConnect ∧
    deriveState envReady false = .ReadyToMint :=
  ⟨(derived_state_priority envNoSdk false).1 rfl,
   (derived_state_priority envReady false).2.2.2.2 rfl rfl rfl
     ⟨10000000, rfl, by norm_num [usdcThreshold]⟩⟩

/-- Claim C3: RequestMint invoked while disconnected, with an absent
address, or with the mint flag already true returns immediately: the whole
component state (store, mint flag, in-flight flag, error, success) is
unchanged and no external call is issued. -/
theorem mint_guard_noop (c : String) (e : Env) (s : CState) (b : Bool)
    (h : e.isConnected = false ∨ e.address = none ∨ s.hasMinted = true) :
    handleMint c e s b = (s, []) := by
  cases hc : e.isConnected with
  | false => simp [handleMint, hc]
  | true =>
    cases ha : e.address with
    | none => simp [handleMint, hc, ha]
    | some addr =>
      rcases h with h | h | h
      · rw [hc] at h; exact absurd h (by simp)
      · rw [ha] at h; exact absurd h (by simp)
      · simp [handleMint, hc, ha, h]

/-- Witness for C3: with the mint flag already set, RequestMint leaves the
state untouched and performs no call. -/
theorem mint_guard_noop_witness :
    handleMint ("0xC") envReady { stFresh with hasMinted := true } false
      = ({ stFresh with hasMinted := true }, []) :=
  mint_guard_noop ("0xC") envReady { stFresh with hasMinted := true } false
    (Or.inr (Or.inr rfl))

/-- Claim C4: connected, on the selected chain, mint flag false: a balance
of exactly 9999999 smallest units derives InsufficientFunds and exactly
10000000 derives ReadyToMint; the comparison is balance >= 10 * 10^6 in
exact integer arithmetic. -/
theorem threshold_boundary :
    (∀ e : Env, e.isConnected = true → isCorrectNetwork e = true →
      e.balance = some 9999999 → deriveState e false = .InsufficientFunds) ∧
    (∀ e : Env, e.isConnected = true → isCorrectNetwork e = true →
      e.balance = some 10000000 → deriveState e false = .ReadyToMint) ∧
    (∀ v : Nat, hasEnoughUSDC (some v) = decide (10 * 10 ^ 6 ≤ v)) := by
  refine ⟨?_, ?_, ?_⟩
  · intro e h hn hb
    simp [deriveState, h, hn, hasEnoughUSDC, hb, usdcThreshold]
  · intro e h hn hb
    simp [deriveState, h, hn, hasEnoughUSDC, hb, usdcThreshold]
  · intro v
    simp [hasEnoughUSDC, usdcThreshold]

/-- Witness for C4 at the two boundary balances on Base. -/
theorem threshold_boundary_witness :
    deriveState { envReady with balance := some 9999999 } false
      = .InsufficientFunds ∧
    deriveState { envReady with balance := some 10000000 } false
      = .ReadyToMint :=
  ⟨threshold_boundary.1 { envReady with balance := some 9999999 } rfl rfl rfl,
   threshold_boundary.2.1 { envReady with balance := some 10000000 } rfl rfl rfl⟩

/-- Claim C2: a mint flag stored true is never set back to false by any
controller step; in particular after a successful RequestMint for
(contract, address), any sequence of further steps still leaves the stored
flag true, and the state derived after the hasMinted-sync effect for that
pair (given connected and correct chain) is AlreadyMinted — the success
timeout clearing the transient flag is among the steps covered. -/
theorem mint_flag_monotone (ops : List Op) (c a : String) (e e2 : Env)
    (s s' : CState)
    (hgen : lsGet s'.store (mintKey c a) = some ("true"))
    (h1 : e.isConnected = true) (h2 : e.address = some a)
    (h3 : s.hasMinted = false)
    (h4 : e2.isConnected = true) (h5 : e2.address = some a)
    (h6 : isCorrectNetwork e2 = true) :
    lsGet (runOps s' ops).store (mintKey c a) = some ("true") ∧
    lsGet (runOps (handleMint c e s false).1 ops).store (mintKey c a)
      = some ("true") ∧
    deriveState e2
      (hasMintedEffect c e2 (runOps (handleMint c e s false).1 ops)).hasMinted
      = .AlreadyMinted := by
  have hset : lsGet (handleMint c e s false).1.store (mintKey c a)
      = some ("true") := by
    rw [handleMint_ok c a e s h1 h2 h3]
    simp [lsGet_lsSet]
  have hrun := runOps_storeTrue ops (handleMint c e s false).1 (mintKey c a) hset
  refine ⟨runOps_storeTrue ops s' (mintKey c a) hgen, hrun, ?_⟩
  have heff : (hasMintedEffect c e2
      (runOps (handleMint c e s false).1 ops)).hasMinted = true := by
    simp [hasMintedEffect, h4, h5, hrun]
  simp [deriveState, h4, h6, heff]

/-- Witness for C2: after minting from a fresh state and then the success
timeout firing, the stored flag is still true and the derived state for the
pair is AlreadyMinted. -/
theorem mint_flag_monotone_witness :
    lsGet (runOps { stFresh with store := [(mintKey ("0xC") ("0xA"), ("true"))] }
        [Op.successClearOp]).store (mintKey ("0xC") ("0xA")) = some ("true") ∧
    lsGet (runOps (handleMint ("0xC") envReady stFresh false).1
        [Op.successClearOp]).store (mintKey ("0xC") ("0xA")) = some ("true") ∧
    deriveState envReady
      (hasMintedEffect ("0xC") envReady
        (runOps (handleMint ("0xC") envReady stFresh false).1
          [Op.successClearOp])).hasMinted = .AlreadyMinted :=
  mint_flag_monotone [Op.successClearOp] ("0xC") ("0xA") envReady envReady
    stFresh { stFresh with store := [(mintKey ("0xC") ("0xA"), ("true"))] }
    (by decide) rfl rfl rfl rfl rfl rfl

/-- Claim C5: for each of connect, switch and mint, a thrown external call
is absorbed (the operation is a total function on states): the stored error
becomes the operation's single message whatever error was stored before,
and the in-flight flag is false on exit; the non-throwing paths through the
try block also end with the in-flight flag cleared. -/
theorem failure_wrapping (c : String) (e : Env) (s : CState) (a : String) :
    (e.isSDKLoaded = true →
      (handleConnectWallet e s true).1.error = some ("Failed to connect wallet") ∧
      (handleConnectWallet e s true).1.isLoading = false ∧
      (handleConnectWallet e s false).1.isLoading = false) ∧
    ((handleSwitchNetwork e s true).1.error
        = some (("Failed to switch to ") ++ chainNameStr e.selectedChain) ∧
      (handleSwitchNetwork e s true).1.isLoading = false ∧
      (handleSwitchNetwork e s false).1.isLoading = false) ∧
    (e.isConnected = true → e.address = some a → s.hasMinted = false →
      (handleMint c e s true).1.error = some ("Minting failed. Please try again.") ∧
      (handleMint c e s true).1.isLoading = false ∧
      (handleMint c e s false).1.isLoading = false) := by
  refine ⟨?_, ?_, ?_⟩
  · intro hs
    simp [handleConnectWallet, hs]
  · simp [handleSwitchNetwork, targetChain, findChainByName]
  · intro h1 h2 h3
    simp [handleMint, h1, h2, h3]

/-- Witness for C5: concrete throwing connect and mint runs end with the
respective messages stored and the in-flight flag cleared. -/
theorem failure_wrapping_witness :
    ((handleConnectWallet envReady stFresh true).1.error
        = some ("Failed to connect wallet") ∧
      (handleConnectWallet envReady stFresh true).1.isLoading = false ∧
      (handleConnectWallet envReady stFresh false).1.isLoading = false) ∧
    ((handleMint ("0xC") envReady stFresh true).1.error
        = some ("Minting failed. Please try again.") ∧
      (handleMint ("0xC") envReady stFresh true).1.isLoading = false ∧
      (handleMint ("0xC") envReady stFresh false).1.isLoading = false) :=
  ⟨(failure_wrapping ("0xC") envReady stFresh ("0xA")).1 rfl,
   (failure_wrapping ("0xC") envReady stFresh ("0xA")).2.2 rfl rfl rfl⟩

/-- Claim C8: every throwing failure of connect, switch or mint leaves the
persisted store, the success flag and the mint flag exactly as before the
operation (only the error and in-flight flags may differ), and a failing
mint issues no store write; failures are absorbed, not propagated. -/
theorem failure_atomicity (c : String) (e : Env) (s : CState) :
    ((handleConnectWallet e s true).1.store = s.store ∧
      (handleConnectWallet e s true).1.success = s.success ∧
      (handleConnectWallet e s true).1.hasMinted = s.hasMinted) ∧
    ((handleSwitchNetwork e s true).1.store = s.store ∧
      (handleSwitchNetwork e s true).1.success = s.success ∧
      (handleSwitchNetwork e s true).1.hasMinted = s.hasMinted) ∧
    ((handleMint c e s true).1.store = s.store ∧
      (handleMint c e s true).1.success = s.success ∧
      (handleMint c e s true).1.hasMinted = s.hasMinted ∧
      List.filter isSetItemCall (handleMint c e s true).2 = []) := by
  refine ⟨?_, ?_, ?_⟩
  · cases hs : e.isSDKLoaded <;> simp [handleConnectWallet, hs]
  · simp [handleSwitchNetwork, targetChain, findChainByName]
  · cases hc : e.isConnected
    · simp [handleMint, hc]
    · cases ha : e.address with
      | none => simp [handleMint, hc, ha]
      | some addr =>
        cases hm : s.hasMinted <;> simp [handleMint, hc, ha, hm, isSetItemCall]

/-- Claim C10: with the wallet connected, an address present and the mint
flag false, RequestMint runs to completion and records the mint — the
environment's active chain id and balance are left fully unconstrained, so
the guard checks only connection, address presence and prior mint. -/
theorem mint_ignores_chain_and_balance (c a : String) (e : Env) (s : CState)
    (h1 : e.isConnected = true) (h2 : e.address = some a)
    (h3 : s.hasMinted = false) :
    lsGet (handleMint c e s false).1.store (mintKey c a) = some ("true") ∧
    (handleMint c e s false).1.hasMinted = true ∧
    (handleMint c e s false).1.success = true := by
  rw [handleMint_ok c a e s h1 h2 h3]
  simp [lsGet_lsSet]

/-- Witness for C10: on the wrong chain with no fetched balance, the mint
still completes and records the flag. -/
theorem mint_ignores_chain_and_balance_witness :
    lsGet (handleMint ("0xC")
        { envReady with chainId := some 1, balance := none } stFresh false).1.store
      (mintKey ("0xC") ("0xA")) = some ("true") ∧
    (handleMint ("0xC")
        { envReady with chainId := some 1, balance := none } stFresh false).1.hasMinted
      = true ∧
    (handleMint ("0xC")
        { envReady with chainId := some 1, balance := none } stFresh false).1.success
      = true :=
  mint_ignores_chain_and_balance ("0xC") ("0xA")
    { envReady with chainId := some 1, balance := none } stFresh rfl rfl rfl

/-- The per-state action dictated by the claim that the enabled action is a
function of the derived state alone: connect in NeedsConnect, switch in
NeedsNetworkSwitch, mint in ReadyToMint, disabled otherwise. -/
def claimedActionOf : MintUIState → Option ActionKind
| .NeedsConnect => some .requestConnect
| .NeedsNetworkSwitch => some .requestChainSwitch
| .AlreadyMinted => none
| .InsufficientFunds => none
| .ReadyToMint => some .requestMint

/-- Claim C6 counterexample: the enabled primary action is not a function
of the derived state alone, even outside of in-flight periods — with the
mint flag true and a mismatched chain the derived state is
NeedsNetworkSwitch yet the button is disabled, because the disabled
expression includes the mint flag as a separate disjunct. -/
theorem action_not_function_of_state :
    ¬ (∀ (e : Env) (s : CState), s.isLoading = false →
        enabledAction e s = claimedActionOf (deriveState e s.hasMinted)) := by
  intro h
  have hx := h
    { isSDKLoaded := true, isConnected := true, address := some ("0xA"),
      chainId := some 1, selectedChain := .base, balance := some 10000000 }
    { store := [], hasMinted := true, isLoading := false, error := none,
      success := false }
    rfl
  exact absurd hx (by decide)

/-- The action actually available, as a function of the derived state
together with the mint and in-flight flags: while in flight or once the
mint flag is set the button is disabled in every state; otherwise connect,
switch and mint are enabled in NeedsConnect, NeedsNetworkSwitch and
ReadyToMint respectively, and InsufficientFunds is disabled. -/
def amendedActionOf (st : MintUIState) (hasMinted isLoading : Bool) :
    Option ActionKind :=
  if isLoading || hasMinted then none
  else
    match st with
    | .NeedsConnect => some .requestConnect
    | .NeedsNetworkSwitch => some .requestChainSwitch
    | .ReadyToMint => some .requestMint
    | .AlreadyMinted => none
    | .InsufficientFunds => none

/-- Claim C6 amended: at most one primary action is enabled at a time, and
which one is a function of the derived state together with the mint flag
and the in-flight flag (the mint flag disables the button even in
NeedsConnect and NeedsNetworkSwitch). -/
theorem action_function_of_state_and_flags (e : Env) (s : CState) :
    enabledAction e s
      = amendedActionOf (deriveState e s.hasMinted) s.hasMinted s.isLoading := by
  cases hl : s.isLoading <;> cases hm : s.hasMinted <;>
    cases hc : e.isConnected <;> cases hn : isCorrectNetwork e <;>
      cases hb : hasEnoughUSDC e.balance <;>
        simp [enabledAction, buttonDisabled, canMint, getButtonAction,
          deriveState, amendedActionOf, hl, hm, hc, hn, hb]

/-- Claim C7 counterexample: a failing RequestConnect does not always
surface "Failed to connect wallet" — when the SDK is not loaded the guard
path stores "Farcaster SDK not loaded" instead (and never reaches the
connect call). -/
theorem connect_error_message_cex :
    ¬ (∀ (e : Env) (s : CState) (b : Bool), (!e.isSDKLoaded || b) = true →
        (handleConnectWallet e s b).1.error
          = some ("Failed to connect wallet")) := by
  intro h
  have hx := h envNoSdk stFresh false rfl
  exact absurd hx (by decide)

/-- Claim C7 amended: with the SDK loaded, a thrown connect call surfaces
exactly "Failed to connect wallet"; with the SDK not loaded the operation
surfaces "Farcaster SDK not loaded" and issues no connect call; in all
cases the connect call is attempted at most once (no retry). -/
theorem connect_error_message (e : Env) (s : CState) (b : Bool) :
    (e.isSDKLoaded = true →
      (handleConnectWallet e s true).1.error
        = some ("Failed to connect wallet")) ∧
    (e.isSDKLoaded = false →
      (handleConnectWallet e s b).1.error = some ("Farcaster SDK not loaded") ∧
      (handleConnectWallet e s b).2 = []) ∧
    ((handleConnectWallet e s b).2).count ExtCall.connectCall ≤ 1 := by
  refine ⟨?_, ?_, ?_⟩
  · intro hs; simp [handleConnectWallet, hs]
  · intro hs; simp [handleConnectWallet, hs]
  · cases hs : e.isSDKLoaded <;> cases b <;>
      simp [handleConnectWallet, hs, List.count_cons] <;> decide

/-- Witness for C7 (amended) at concrete inputs: both error messages, and
a single connect attempt on the throwing path. -/
theorem connect_error_message_witness :
    (handleConnectWallet envReady stFresh true).1.error
      = some ("Failed to connect wallet") ∧
    (handleConnectWallet envNoSdk stFresh false).1.error
      = some ("Farcaster SDK not loaded") ∧
    ((handleConnectWallet envReady stFresh true).2).count ExtCall.connectCall ≤ 1 :=
  ⟨(connect_error_message envReady stFresh true).1 rfl,
   ((connect_error_message envNoSdk stFresh false).2.1 rfl).1,
   (connect_error_message envReady stFresh true).2.2⟩

/-- Claim C9 counterexample: flags for distinct (contract, address) pairs
are not always independent, because the storage key is plain underscore
concatenation: the distinct pairs ("0x1_0x2", "0x3") and ("0x1",
"0x2_0x3") share the key "minted_0x1_0x2_0x3", so minting for the first
pair flips the flag read back for the second. -/
theorem mint_frame_cex :
    ¬ (∀ (c a cOther aOther : String) (e : Env) (s : CState),
        e.isConnected = true → e.address = some a → s.hasMinted = false →
        (c ≠ cOther ∨ a ≠ aOther) →
        lsGet (handleMint c e s false).1.store (mintKey cOther aOther)
          = lsGet s.store (mintKey cOther aOther)) := by
  intro h
  have hx := h ("0x1_0x2") ("0x3") ("0x1") ("0x2_0x3")
    { isSDKLoaded := true, isConnected := true, address := some ("0x3"),
      chainId := some 8453, selectedChain := .base, balance := some 10000000 }
    stFresh rfl rfl rfl (Or.inl (by decide))
  exact absurd hx (by decide)

/-- Claim C9 amended: a successful RequestMint for (contract, address)
sets the flag read back for that pair to true, and leaves every storage
key other than the pair's encoded key `minted_<contract>_<address>`
unchanged; distinct pairs are independent exactly when their encoded keys
differ (which holds whenever the addresses contain no underscore). -/
theorem mint_frame (c a k : String) (e : Env) (s : CState)
    (haddr : e.address = some a) (hk : k ≠ mintKey c a) :
    lsGet (handleMint c e s false).1.store k = lsGet s.store k ∧
    (e.isConnected = true → s.hasMinted = false →
      lsGet (handleMint c e s false).1.store (mintKey c a) = some ("true")) := by
  constructor
  · cases hc : e.isConnected
    · simp [handleMint, hc]
    · cases hm : s.hasMinted
      · rw [handleMint_ok c a e s hc haddr hm]
        simp only [lsGet_lsSet]
        have : (mintKey c a == k) = false := by
          simp only [beq_eq_false_iff_ne, ne_eq]
          exact fun hEq => hk hEq.symm
        simp [this]
      · simp [handleMint, hc, haddr, hm]
  · intro hc hm
    rw [handleMint_ok c a e s hc haddr hm]
    simp [lsGet_lsSet]

/-- Witness for C9 (amended): minting for ("0xC", "0xA") sets that pair's
flag and leaves the key of ("0xD", "0xA") untouched. -/
theorem mint_frame_witness :
    lsGet (handleMint ("0xC") envReady stFresh false).1.store
        (mintKey ("0xD") ("0xA"))
      = lsGet stFresh.store (mintKey ("0xD") ("0xA")) ∧
    lsGet (handleMint ("0xC") envReady stFresh false).1.store
        (mintKey ("0xC") ("0xA")) = some ("true") :=
  ⟨(mint_frame ("0xC") ("0xA") (mintKey ("0xD") ("0xA")) envReady stFresh
      rfl (by decide)).1,
   (mint_frame ("0xC") ("0xA") (mintKey ("0xD") ("0xA")) envReady stFresh
      rfl (by decide)).2 rfl rfl⟩

end SeaSeawell
